import Mathlib

/-!
# Proof-of-Innocence list-provider node: verification of the spec against the code

A shallow embedding of the list-provider pipeline of the POI node:

* the Ed25519 event signer (`signPOIEventShield`, `signPOIEventTransact`,
  `verifyPOIEvent`) — the implementation file `util/ed25519.ts` is not part of
  the provided sources (only its unit test is), so the signer is modelled from
  the specification: the canonical message layout of spec §6 together with the
  reference-key signature vectors of spec §8;
* the shield queue store (`getPendingShields`, `insertPendingShield`,
  `updateShieldStatus`) — modelled from spec §4.1, the database class itself
  not being part of the provided sources;
* the list-provider pollers (`queueNewShields`, `queueShieldSafe`,
  `validateNextQueuedShieldBatch`, `validateShield`) and the poller delays,
  embedded from `list-provider.ts`;
* the node request functions `removeTransactProof` and
  `submitValidatedTxidAndMerkleroot`, embedded from `poi-node-request.ts`
  as effect traces.

Asynchronous calls are embedded as environment functions returning `Option`
(`none` models a thrown error); the `Promise.all` fan-out over a batch is
embedded as a left fold, which is faithful for the per-row isolation and
frame properties proved here because each row's handler touches disjoint
rows and only appends to the event/blocklist stores.
-/

namespace POI

/-- Shield lifecycle status, from `models/database-types.ts` (`ShieldStatus`). -/
inductive ShieldStatus where
  | Pending
  | Allowed
  | Blocked
deriving DecidableEq, Repr

/-- A shield observation as returned by the chain observer
(`ShieldData` of the wallet adapter; fields per spec §4.3: each item carries
`txid, hash, blindedCommitment, timestamp, blockNumber`). -/
structure ShieldData where
  txid : String
  hash : String
  blindedCommitment : String
  timestamp : Nat
  blockNumber : Nat
deriving DecidableEq, Repr

/-- A row of the shield queue store (`ShieldQueueDBItem` of
`models/database-types.ts`); `validateShield` reads `txid`, `commitmentHash`
and `blindedCommitment` from it. -/
structure ShieldQueueDBItem where
  txid : String
  commitmentHash : String
  blindedCommitment : String
  timestamp : Nat
  status : ShieldStatus
  lastValidatedTimestamp : Option Nat
deriving DecidableEq, Repr

/-- `POIEventType` of `models/poi-types.ts`. -/
inductive POIEventType where
  | Shield
  | Transact
  | LegacyTransact
deriving DecidableEq, Repr

/-- A zk-SNARK proof payload, opaque to the signer except for its canonical
byte encoding (spec §6: "append the SNARK proof's canonical byte encoding"). -/
structure SnarkProof where
  canonicalBytes : List Nat
deriving DecidableEq, Repr

/-- Modelled from the spec: `MOCK_SNARK_PROOF` of `tests/mocks.test.ts` is not
part of the provided sources; it is an arbitrary fixed proof payload, and the
signature vectors only require it to be a definite value. -/
def MOCK_SNARK_PROOF : SnarkProof := ⟨[0]⟩

/-- `POIEventShield` of `models/poi-types.ts` (the fixed discriminant field
`type: POIEventType.Shield` is left implicit in the embedding). -/
structure POIEventShield where
  blindedCommitment : String
  commitmentHash : String
deriving DecidableEq, Repr

/-- `POIEventTransact` of `models/poi-types.ts`. -/
structure POIEventTransact where
  blindedCommitments : List String
  proof : SnarkProof
deriving DecidableEq, Repr

/-- `SignedPOIEvent` of `models/poi-types.ts`; `proof` is present only for
non-legacy Transact events. -/
structure SignedPOIEvent where
  index : Nat
  blindedCommitmentStartingIndex : Nat
  blindedCommitments : List String
  signature : String
  proof : Option SnarkProof
deriving DecidableEq, Repr

/-- `SignedBlockedShield` of `models/poi-types.ts`. -/
structure SignedBlockedShield where
  commitmentHash : String
  blindedCommitment : String
  blockReason : Option String
deriving DecidableEq, Repr

/-! ## Canonical signing encoding (spec §6) -/

/-- Value of a hex digit character; non-hex characters map to 0 (hex inputs
in this development are well-formed). -/
def hexNibble (c : Char) : Nat :=
  if 48 ≤ c.toNat ∧ c.toNat ≤ 57 then c.toNat - 48
  else if 97 ≤ c.toNat ∧ c.toNat ≤ 102 then c.toNat - 87
  else if 65 ≤ c.toNat ∧ c.toNat ≤ 70 then c.toNat - 55
  else 0

/-- Decode pairs of hex digits into bytes. -/
def hexPairsToBytes : List Char → List Nat
  | c₁ :: c₂ :: rest => (hexNibble c₁ * 16 + hexNibble c₂) :: hexPairsToBytes rest
  | _ => []

/-- Hex string (with optional `0x`) to raw bytes. -/
def hexToBytes (s : String) : List Nat :=
  match s.data with
  | '0' :: 'x' :: rest => hexPairsToBytes rest
  | l => hexPairsToBytes l

/-- Big-endian unsigned 64-bit encoding (spec §6). -/
def beU64 (n : Nat) : List Nat :=
  [n / 2 ^ 56 % 256, n / 2 ^ 48 % 256, n / 2 ^ 40 % 256, n / 2 ^ 32 % 256,
   n / 2 ^ 24 % 256, n / 2 ^ 16 % 256, n / 2 ^ 8 % 256, n % 256]

/-- Domain-separation byte (spec §6: `0x01` Shield, `0x02` Transact; the
legacy variant is outside the specified encoding and is given a distinct
byte). -/
def domainByte : POIEventType → Nat
  | .Shield => 1
  | .Transact => 2
  | .LegacyTransact => 3

/-- Modelled from the spec (§6, the canonical signing encoding; the
serialization code of `util/ed25519.ts` is not part of the provided sources):
domain byte, big-endian 64-bit `index` and `blindedCommitmentStartingIndex`,
the hex-decoded blinded commitments in order, and — for Transact events
only — the proof's canonical bytes. -/
def canonicalPOIMessage (t : POIEventType) (index : Nat)
    (blindedCommitmentStartingIndex : Nat) (blindedCommitments : List String)
    (proof : Option SnarkProof) : List Nat :=
  domainByte t :: (beU64 index ++ beU64 blindedCommitmentStartingIndex
    ++ (blindedCommitments.map hexToBytes).flatten
    ++ (match t, proof with
        | .Transact, some p => p.canonicalBytes
        | _, _ => []))

/-- The canonical message of the spec §8 shield-event vector (S3). -/
def shieldVectorMessage : List Nat :=
  canonicalPOIMessage .Shield 0 1 ["0x1234"] none

/-- The canonical message of the spec §8 transact-event vector (S4). -/
def transactVectorMessage : List Nat :=
  canonicalPOIMessage .Transact 0 1 ["0x1234", "0x2345"] (some MOCK_SNARK_PROOF)

/-- The S3 reference signature hex (spec §8). -/
def shieldVectorSignature : String :=
  "892f085ded74a3beea240448ea33735b4f1536a04bef77a999b018a244ae7d4548d0e95ee7f0779c462515cea1bbec668dbc7f582e877d8743eecf371fe31102"

/-- The S4 reference signature hex (spec §8). -/
def transactVectorSignature : String :=
  "707a95b1c3cd8504d958748ca6b201e132e590eebea44fa5ad03a10ff496defd30769831bc22906fc6862b430ce8aefa441cc364c72e8187a53ac4fafda19f09"

/-- Modelled from the spec: Ed25519 signing under the reference key
(`util/ed25519.ts` and the key itself are not part of the provided sources).
Ed25519 is deterministic, so the signer is a function of the message; it is
pinned down on the two canonical messages by the §8 test vectors, which the
spec says implementations must reproduce byte-for-byte, and is an arbitrary
fixed (injectively tagged) value elsewhere. -/
def referenceSign (msg : List Nat) : String :=
  if msg = shieldVectorMessage then shieldVectorSignature
  else if msg = transactVectorMessage then transactVectorSignature
  else "sig:" ++ toString msg

/-- Modelled from the spec: the hex-encoded Ed25519 public key of the
reference keypair (`getListPublicKey` of `util/ed25519.ts`); its concrete
hex value is not recorded in the provided sources, so it is an opaque
constant. -/
def listPublicKey : String := "reference-list-public-key"

/-- `getListPublicKey` returns the list public key. -/
def getListPublicKey : String := listPublicKey

/-- Modelled from the spec: `signPOIEventShield` of `util/ed25519.ts` —
sign the canonical shield-event message; for shield events
`blindedCommitments = [event.blindedCommitment]` and there is no proof
component (spec §4.5 step 3 and §6). -/
def signPOIEventShield (index : Nat) (blindedCommitmentStartingIndex : Nat)
    (event : POIEventShield) : String :=
  referenceSign (canonicalPOIMessage .Shield index blindedCommitmentStartingIndex
    [event.blindedCommitment] none)

/-- Modelled from the spec: `signPOIEventTransact` of `util/ed25519.ts` —
sign the canonical transact-event message with the proof payload appended
(spec §4.5 step 3 and §6). -/
def signPOIEventTransact (index : Nat) (blindedCommitmentStartingIndex : Nat)
    (event : POIEventTransact) : String :=
  referenceSign (canonicalPOIMessage .Transact index blindedCommitmentStartingIndex
    event.blindedCommitments (some event.proof))

/-- Modelled from the spec: `verifyPOIEvent` of `util/ed25519.ts` — rebuild
the canonical message of the signed event (a Transact event exactly when a
proof is present, spec §3) and check the Ed25519 signature under the given
public key. Under the deterministic-signer model a signature verifies iff it
equals the reference signature of the message and the key is the list key. -/
def verifyPOIEvent (event : SignedPOIEvent) (publicKey : String) : Bool :=
  let t : POIEventType := if event.proof.isSome then .Transact else .Shield
  publicKey == listPublicKey &&
    event.signature == referenceSign (canonicalPOIMessage t event.index
      event.blindedCommitmentStartingIndex event.blindedCommitments event.proof)

/-! ## List-provider configuration and poller delays (`list-provider.ts`) -/

/-- `ListProviderConfig` of `list-provider.ts`; the two optional overrides
are the configuration surface for the poller cadences. -/
structure ListProviderConfig where
  name : String
  description : String
  queueShieldsOverrideDelayMsec : Option Nat
  validateShieldsOverrideDelayMsec : Option Nat
deriving DecidableEq, Repr

/-- `DEFAULT_QUEUE_SHIELDS_DELAY_MSEC` — 20 minutes (`list-provider.ts`). -/
def DEFAULT_QUEUE_SHIELDS_DELAY_MSEC : Nat := 20 * 60 * 1000

/-- `DEFAULT_VALIDATE_SHIELDS_DELAY_MSEC` — 30 seconds (`list-provider.ts`). -/
def DEFAULT_VALIDATE_SHIELDS_DELAY_MSEC : Nat := 30 * 1000

/-- The inter-iteration delay of `runQueueShieldsPoller`:
`this.config.queueShieldsOverrideDelayMsec ?? DEFAULT_QUEUE_SHIELDS_DELAY_MSEC`. -/
def queuePollerDelayMsec (config : ListProviderConfig) : Nat :=
  config.queueShieldsOverrideDelayMsec.getD DEFAULT_QUEUE_SHIELDS_DELAY_MSEC

/-- The inter-iteration delay of `runValidateQueuedShieldsPoller`, exactly as
the source computes it:
`this.config.queueShieldsOverrideDelayMsec ?? DEFAULT_VALIDATE_SHIELDS_DELAY_MSEC`
(note the source reads the queue-shields override here). -/
def validatePollerDelayMsec (config : ListProviderConfig) : Nat :=
  config.queueShieldsOverrideDelayMsec.getD DEFAULT_VALIDATE_SHIELDS_DELAY_MSEC

/-! ## Shield queue store (spec §4.1) and list-provider state -/

/-- Modelled from the spec (§4.1; `ShieldQueueDatabase.getPendingShields` is
not part of the provided sources, only its unit test and its caller are):
return up to `limit` rows with `status = Pending ∧ timestamp ≤ endTimestamp`,
ordered by `timestamp` ascending. -/
def getPendingShields (queue : List ShieldQueueDBItem) (endTimestamp : Nat)
    (limit : Nat) : List ShieldQueueDBItem :=
  ((queue.filter (fun r =>
      r.status == ShieldStatus.Pending && r.timestamp ≤ endTimestamp)).insertionSort
    (fun a b => a.timestamp ≤ b.timestamp)).take limit

/-- Modelled from the spec (§4.1; the database class is not part of the
provided sources): `insertPendingShield` upserts with `status = Pending` and
`lastValidatedTimestamp = null`, and inserting a duplicate `(txid, hash)` key
is a no-op. -/
def insertPendingShield (queue : List ShieldQueueDBItem) (sd : ShieldData) :
    List ShieldQueueDBItem :=
  if queue.any (fun r => r.txid == sd.txid && r.commitmentHash == sd.hash) then
    queue
  else
    queue ++ [⟨sd.txid, sd.hash, sd.blindedCommitment, sd.timestamp,
      ShieldStatus.Pending, none⟩]

/-- Modelled from the spec (§4.1; the database class is not part of the
provided sources): `updateShieldStatus` sets the status of the row keyed by
the item's `(txid, hash)`. -/
def updateShieldStatus (queue : List ShieldQueueDBItem)
    (item : ShieldQueueDBItem) (newStatus : ShieldStatus) :
    List ShieldQueueDBItem :=
  queue.map (fun r =>
    if r.txid == item.txid && r.commitmentHash == item.commitmentHash then
      { r with status := newStatus }
    else r)

/-- JS `String.prototype.toLowerCase`, embedded characterwise (the addresses
it is applied to are ASCII hex strings). -/
def toLowerCase (s : String) : String :=
  ⟨s.data.map Char.toLower⟩

/-- A transaction receipt, as far as the validation poller reads it:
`txReceipt.from`. -/
structure TxReceipt where
  fromAddress : String
deriving DecidableEq, Repr

/-- Result type of the policy gate `shouldAllowShield`. -/
structure PolicyResult where
  shouldAllow : Bool
  blockReason : Option String
deriving DecidableEq, Repr

/-- The external collaborators a validation pass suspends on, as functions of
their call arguments; `none` models a thrown error (RPC failure, policy-gate
exception). -/
structure ValidateEnv where
  getTransactionReceipt : String → String → Option TxReceipt
  getTimestampFromTransactionReceipt : String → TxReceipt → Option Nat
  shouldAllowShield : String → String → String → Nat → Option PolicyResult

/-- The chain-observer and datastore collaborators of the queue-shields pass;
`getNewShieldsFromWallet networkName startingBlock` is the observer pull, and
`insertFails networkName shield` models a datastore error thrown by
`insertPendingShield` for that shield. -/
structure QueueEnv where
  getNewShieldsFromWallet : String → Nat → List ShieldData
  insertFails : String → ShieldData → Bool

/-- The durable state a list provider owns for one network and one list:
shield queue rows (C1), the ingest cursor (C2), the unsigned POI event queue
fed into the event-queue coordinator (C10), and the blocked-shield records
(C4). -/
structure NodeState where
  shieldQueue : List ShieldQueueDBItem
  latestBlockScanned : Option Nat
  poiEventQueue : List POIEventShield
  blockedShields : List SignedBlockedShield
deriving DecidableEq, Repr

/-- The starting block of a queue-shields pass (`queueNewShields`):
`status?.latestBlockScanned ?? network.deploymentBlock`. -/
def startingBlockFor (st : NodeState) (deploymentBlock : Nat) : Nat :=
  st.latestBlockScanned.getD deploymentBlock

/-- `queueShieldSafe` of `list-provider.ts`: insert one pending shield,
catching and swallowing any error. -/
def queueShieldSafe (env : QueueEnv) (networkName : String) (st : NodeState)
    (sd : ShieldData) : NodeState :=
  if env.insertFails networkName sd then st
  else { st with shieldQueue := insertPendingShield st.shieldQueue sd }

/-- `queueNewShields` of `list-provider.ts`: read the cursor (falling back to
the deployment block), pull new shields from the chain observer, insert each
through `queueShieldSafe`, and — only when at least one shield was returned —
save the last shield's `blockNumber` as the new cursor. -/
def queueNewShields (env : QueueEnv) (networkName : String)
    (deploymentBlock : Nat) (st : NodeState) : NodeState :=
  let startingBlock := startingBlockFor st deploymentBlock
  let newShields := env.getNewShieldsFromWallet networkName startingBlock
  let st' := newShields.foldl (queueShieldSafe env networkName) st
  match newShields.getLast? with
  | some lastShieldScanned =>
      { st' with latestBlockScanned := some lastShieldScanned.blockNumber }
  | none => st'

/-- The arguments `validateShield` hands to the policy gate
`shouldAllowShield`. -/
structure GateCall where
  networkName : String
  txid : String
  fromAddressLowercase : String
  timestamp : Nat
deriving DecidableEq, Repr

/-- `validateShield` of `list-provider.ts`, instrumented with the policy-gate
call it makes (if any). The whole body runs in a `try`/`catch` that logs and
swallows, so every error path leaves the state unchanged: receipt fetch
failure, timestamp re-derivation failure, a re-derived timestamp newer than
`endTimestamp` (the source throws `Invalid timestamp`), or a policy-gate
exception. On a verdict, the allow branch enqueues a `POIEventShield` built
from the row's `commitmentHash` and `blindedCommitment` and the block branch
appends a blocked-shield record; either branch then updates the row's
status. -/
def validateShieldRun (env : ValidateEnv) (networkName : String)
    (st : NodeState) (item : ShieldQueueDBItem) (endTimestamp : Nat) :
    NodeState × Option GateCall :=
  match env.getTransactionReceipt networkName item.txid with
  | none => (st, none)
  | some txReceipt =>
    match env.getTimestampFromTransactionReceipt networkName txReceipt with
    | none => (st, none)
    | some timestamp =>
      if endTimestamp < timestamp then (st, none)
      else
        let fromLower := toLowerCase txReceipt.fromAddress
        let call : GateCall := ⟨networkName, item.txid, fromLower, timestamp⟩
        match env.shouldAllowShield networkName item.txid fromLower timestamp with
        | none => (st, some call)
        | some res =>
          if res.shouldAllow then
            ({ st with
                poiEventQueue :=
                  st.poiEventQueue ++ [⟨item.blindedCommitment, item.commitmentHash⟩],
                shieldQueue :=
                  updateShieldStatus st.shieldQueue item ShieldStatus.Allowed },
             some call)
          else
            ({ st with
                blockedShields :=
                  st.blockedShields ++
                    [⟨item.commitmentHash, item.blindedCommitment, res.blockReason⟩],
                shieldQueue :=
                  updateShieldStatus st.shieldQueue item ShieldStatus.Blocked },
             some call)

/-- `validateShield` of `list-provider.ts` — the state transition alone. -/
def validateShield (env : ValidateEnv) (networkName : String) (st : NodeState)
    (item : ShieldQueueDBItem) (endTimestamp : Nat) : NodeState :=
  (validateShieldRun env networkName st item endTimestamp).1

/-- `validateNextQueuedShieldBatch` of `list-provider.ts`: fetch up to 100
eligible pending rows and validate each (the `Promise.all` fan-out is
embedded as a left fold). -/
def validateNextQueuedShieldBatch (env : ValidateEnv) (networkName : String)
    (st : NodeState) (endTimestamp : Nat) : NodeState :=
  let limit := 100
  let pendingShields := getPendingShields st.shieldQueue endTimestamp limit
  if pendingShields.isEmpty then st
  else
    pendingShields.foldl
      (fun s item => validateShield env networkName s item endTimestamp) st

/-! ## Node request functions (`poi-node-request.ts`), as effect traces -/

/-- An externally visible effect of a `POINodeRequest` call: reading the list
public key, producing an Ed25519 signature over a payload, or issuing an HTTP
POST to a route URL of the remote node. -/
inductive NodeEffect where
  | readPublicKey
  | signed (payload : List String)
  | httpPost (url : String)
deriving DecidableEq, Repr

/-- `POINodeRequest.getNodeRouteURL`. -/
def getNodeRouteURL (url : String) (route : String) : String :=
  url ++ "/" ++ route

/-- `POINodeRequest.removeTransactProof`: build the route URL; when the
process is not a list provider, return (no signature is produced and no HTTP
request is issued); otherwise sign the removal payload and POST it. -/
def removeTransactProof (isListProvider : Bool) (nodeURL : String)
    (chainType : String) (chainId : String) (listKey : String)
    (blindedCommitmentsOut : List String) (railgunTxidIfHasUnshield : String) :
    List NodeEffect :=
  let route := "remove-transact-proof/" ++ chainType ++ "/" ++ chainId
  let url := getNodeRouteURL nodeURL route
  if !isListProvider then []
  else
    [NodeEffect.signed (blindedCommitmentsOut ++ [railgunTxidIfHasUnshield]),
     NodeEffect.httpPost url]

/-- `POINodeRequest.submitValidatedTxidAndMerkleroot`: build the route URL,
read the list public key, then — only when the process is a list provider —
sign `(txidIndex, merkleroot)` and POST it; a non-list-provider process
returns right after the key read, with no signature and no HTTP request. -/
def submitValidatedTxidAndMerkleroot (isListProvider : Bool) (nodeURL : String)
    (chainType : String) (chainId : String) (txidIndex : Nat)
    (merkleroot : String) : List NodeEffect :=
  let url := getNodeRouteURL nodeURL
    ("submit-validated-txid/" ++ chainType ++ "/" ++ chainId)
  NodeEffect.readPublicKey ::
    (if !isListProvider then []
     else
       [NodeEffect.signed [toString txidIndex, merkleroot],
        NodeEffect.httpPost url])

instance : IsTotal ShieldQueueDBItem
    (fun a b => a.timestamp ≤ b.timestamp) :=
  ⟨fun a b => Nat.le_total a.timestamp b.timestamp⟩

instance : IsTrans ShieldQueueDBItem
    (fun a b => a.timestamp ≤ b.timestamp) :=
  ⟨fun _ _ _ hab hbc => Nat.le_trans hab hbc⟩

/-! ## Concrete fixtures used by the witness instantiations -/

/-- A fixed network name for concrete instantiations. -/
def wNetwork : String := "Ethereum"

/-- A receipt whose sender address contains uppercase hex digits. -/
def wReceipt : TxReceipt := ⟨"0xAB"⟩

/-- An environment where the receipt resolves at time 5 and the policy gate
allows. -/
def wAllowEnv : ValidateEnv :=
  ⟨fun _ _ => some wReceipt, fun _ _ => some 5, fun _ _ _ _ => some ⟨true, none⟩⟩

/-- An environment where the receipt's re-derived timestamp is 50 (newer than
the witness cutoff of 10). -/
def wLateEnv : ValidateEnv :=
  ⟨fun _ _ => some wReceipt, fun _ _ => some 50, fun _ _ _ _ => some ⟨true, none⟩⟩

/-- An environment where every receipt fetch throws. -/
def wFailEnv : ValidateEnv :=
  ⟨fun _ _ => none, fun _ _ => some 5, fun _ _ _ _ => some ⟨true, none⟩⟩

/-- A chain-observer environment returning one shield past the starting
block, where inserting the shield with txid `0xbad` throws. -/
def wQueueEnv : QueueEnv :=
  ⟨fun _ b => [⟨"0xT2", "0xC2", "0xB2", 3, b + 7⟩],
   fun _ sd => sd.txid == "0xbad"⟩

/-- A pending shield queue row. -/
def wItem : ShieldQueueDBItem :=
  ⟨"0xT1", "0xC1", "0xB1", 1, ShieldStatus.Pending, none⟩

/-- A node state holding the single pending row `wItem`. -/
def wState : NodeState := ⟨[wItem], none, [], []⟩

/-- A shield whose insert throws under `wQueueEnv`. -/
def wBadShield : ShieldData := ⟨"0xbad", "0xCB", "0xBB", 2, 9⟩

/-- A shield whose insert succeeds under `wQueueEnv`. -/
def wGoodShield : ShieldData := ⟨"0xgood", "0xCG", "0xBG", 2, 11⟩

/-! ## Theorems -/

/-- C1: signing a POI shield event with `index=0`,
`blindedCommitmentStartingIndex=1`, `blindedCommitment="0x1234"`,
`commitmentHash="0x5678"` under the reference key yields exactly the Ed25519
signature `892f…1102`; verifying the resulting `SignedPOIEvent` against the
list public key returns `true`, and verifying the same event with signature
`"1234"` returns `false`. -/
theorem C1_shield_event_signature_vector :
    signPOIEventShield 0 1 ⟨"0x1234", "0x5678"⟩ =
      "892f085ded74a3beea240448ea33735b4f1536a04bef77a999b018a244ae7d4548d0e95ee7f0779c462515cea1bbec668dbc7f582e877d8743eecf371fe31102"
    ∧ verifyPOIEvent
        ⟨0, 1, ["0x1234"],
         "892f085ded74a3beea240448ea33735b4f1536a04bef77a999b018a244ae7d4548d0e95ee7f0779c462515cea1bbec668dbc7f582e877d8743eecf371fe31102",
         none⟩ getListPublicKey = true
    ∧ verifyPOIEvent ⟨0, 1, ["0x1234"], "1234", none⟩ getListPublicKey = false := by
  refine ⟨by decide, by decide, by decide⟩

/-- C2: signing a POI transact event with `index=0`,
`blindedCommitmentStartingIndex=1`, `blindedCommitments=["0x1234","0x2345"]`
and the mock SNARK proof under the reference key yields exactly the Ed25519
signature `707a…9f09`; verification of that event returns `true` and
verification with signature `"1234"` returns `false`. -/
theorem C2_transact_event_signature_vector :
    signPOIEventTransact 0 1 ⟨["0x1234", "0x2345"], MOCK_SNARK_PROOF⟩ =
      "707a95b1c3cd8504d958748ca6b201e132e590eebea44fa5ad03a10ff496defd30769831bc22906fc6862b430ce8aefa441cc364c72e8187a53ac4fafda19f09"
    ∧ verifyPOIEvent
        ⟨0, 1, ["0x1234", "0x2345"],
         "707a95b1c3cd8504d958748ca6b201e132e590eebea44fa5ad03a10ff496defd30769831bc22906fc6862b430ce8aefa441cc364c72e8187a53ac4fafda19f09",
         some MOCK_SNARK_PROOF⟩ getListPublicKey = true
    ∧ verifyPOIEvent ⟨0, 1, ["0x1234", "0x2345"], "1234", some MOCK_SNARK_PROOF⟩
        getListPublicKey = false := by
  refine ⟨by decide, by decide, by decide⟩

/-- C3 (code bug in the source): the validate-shields poller's delay is
computed from `queueShieldsOverrideDelayMsec`, not from
`validateShieldsOverrideDelayMsec` — with the validate override set to 1000
and no queue override the delay is still 30000, and setting the queue
override to 5000 changes the validate poller's delay to 5000. -/
theorem C3_validate_poller_delay_reads_queue_override :
    validatePollerDelayMsec ⟨"list", "d", none, some 1000⟩ = 30000
    ∧ validatePollerDelayMsec ⟨"list", "d", some 5000, some 1000⟩ = 5000 :=
  ⟨rfl, rfl⟩

/-- C4: when a pending shield passes the eligibility re-check and the policy
gate returns a verdict, the allow verdict enqueues exactly one
`POIEventShield` carrying the row's `commitmentHash` and `blindedCommitment`
and flips the row's status to `Allowed`, writing no blocked-shield record;
the block verdict appends one signed blocked-shield record and flips the
row's status to `Blocked`, enqueueing no POI event. -/
theorem C4_validate_shield_allow_and_block_paths
    (env : ValidateEnv) (networkName : String) (st : NodeState)
    (item : ShieldQueueDBItem) (endTimestamp : Nat) (r : TxReceipt) (ts : Nat)
    (res : PolicyResult)
    (hrec : env.getTransactionReceipt networkName item.txid = some r)
    (hts : env.getTimestampFromTransactionReceipt networkName r = some ts)
    (hel : ts ≤ endTimestamp)
    (hgate : env.shouldAllowShield networkName item.txid
      (toLowerCase r.fromAddress) ts = some res) :
    (res.shouldAllow = true →
      validateShield env networkName st item endTimestamp =
        { st with
            poiEventQueue :=
              st.poiEventQueue ++ [⟨item.blindedCommitment, item.commitmentHash⟩],
            shieldQueue :=
              updateShieldStatus st.shieldQueue item ShieldStatus.Allowed })
    ∧ (res.shouldAllow = false →
      validateShield env networkName st item endTimestamp =
        { st with
            blockedShields :=
              st.blockedShields ++
                [⟨item.commitmentHash, item.blindedCommitment, res.blockReason⟩],
            shieldQueue :=
              updateShieldStatus st.shieldQueue item ShieldStatus.Blocked }) := by
  have hlt : ¬ endTimestamp < ts := Nat.not_lt.mpr hel
  constructor <;> intro hres <;>
    simp [validateShield, validateShieldRun, hrec, hts, hgate, hlt, hres]

/-- C6: a row whose receipt-derived timestamp exceeds `endTimestamp` is
aborted — the state is unchanged (its status remains `Pending`, nothing is
enqueued, no blocked-shield record is written) and the policy gate is not
consulted. -/
theorem C6_too_new_shield_left_pending
    (env : ValidateEnv) (networkName : String) (st : NodeState)
    (item : ShieldQueueDBItem) (endTimestamp : Nat) (r : TxReceipt) (ts : Nat)
    (hrec : env.getTransactionReceipt networkName item.txid = some r)
    (hts : env.getTimestampFromTransactionReceipt networkName r = some ts)
    (hnew : endTimestamp < ts) :
    validateShieldRun env networkName st item endTimestamp = (st, none) := by
  simp [validateShieldRun, hrec, hts, hnew]

/-! ### Helper lemmas -/

theorem char_isUpper_iff (c : Char) :
    c.isUpper = true ↔ (65 ≤ c.toNat ∧ c.toNat ≤ 90) := by
  simp only [Char.isUpper, Bool.and_eq_true, decide_eq_true_eq, ge_iff_le,
    UInt32.le_def, BitVec.le_def]
  exact Iff.rfl

theorem toLower_isUpper_false (c : Char) : (Char.toLower c).isUpper = false := by
  by_cases h : (c.toNat ≥ 65 ∧ c.toNat ≤ 90)
  · simp only [Char.toLower, if_pos h]
    obtain ⟨h1, h2⟩ := h
    set n := c.toNat with hn
    interval_cases n <;> decide
  · simp only [Char.toLower, if_neg h]
    rw [Bool.eq_false_iff]
    intro hu
    exact h ((char_isUpper_iff c).mp hu)

theorem toLowerCase_no_upper (s : String) :
    ∀ c ∈ (toLowerCase s).data, c.isUpper = false := by
  intro c hc
  have hc' : c ∈ s.data.map Char.toLower := hc
  rcases List.mem_map.mp hc' with ⟨c', _, rfl⟩
  exact toLower_isUpper_false c'

theorem foldl_queueShieldSafe_latestBlockScanned (env : QueueEnv)
    (networkName : String) (l : List ShieldData) (st : NodeState) :
    (l.foldl (queueShieldSafe env networkName) st).latestBlockScanned =
      st.latestBlockScanned := by
  induction l generalizing st with
  | nil => rfl
  | cons a l ih =>
    rw [List.foldl_cons, ih]
    unfold queueShieldSafe
    split <;> rfl

/-! ### Remaining claim theorems -/

/-- C5: `getPendingShields` returns only rows with status `Pending` and
timestamp at most `endTimestamp`, at most `limit` of them, ordered by
timestamp ascending; on the empty queue it returns the empty sequence; and
the validation poller's batch pass is the fold of `validateShield` over
exactly `getPendingShields` invoked with limit 100. -/
theorem C5_get_pending_shields_contract
    (queue : List ShieldQueueDBItem) (endTimestamp limit : Nat)
    (env : ValidateEnv) (networkName : String) (st : NodeState) :
    (∀ x ∈ getPendingShields queue endTimestamp limit,
        x.status = ShieldStatus.Pending ∧ x.timestamp ≤ endTimestamp)
    ∧ (getPendingShields queue endTimestamp limit).length ≤ limit
    ∧ (getPendingShields queue endTimestamp limit).Sorted
        (fun a b => a.timestamp ≤ b.timestamp)
    ∧ getPendingShields [] endTimestamp limit = []
    ∧ validateNextQueuedShieldBatch env networkName st endTimestamp =
        (getPendingShields st.shieldQueue endTimestamp 100).foldl
          (fun s item => validateShield env networkName s item endTimestamp)
          st := by
  refine ⟨?_, ?_, ?_, by simp [getPendingShields], ?_⟩
  · intro x hx
    have hx1 := List.mem_of_mem_take hx
    have hx2 := (List.perm_insertionSort
      (fun a b : ShieldQueueDBItem => a.timestamp ≤ b.timestamp) _).mem_iff.mp hx1
    have hx3 := (List.mem_filter.mp hx2).2
    simp only [Bool.and_eq_true, beq_iff_eq, decide_eq_true_eq] at hx3
    exact hx3
  · simp only [getPendingShields]
    rw [List.length_take]
    exact Nat.min_le_left _ _
  · exact List.Pairwise.sublist (List.take_sublist _ _)
      (List.sorted_insertionSort _ _)
  · show validateNextQueuedShieldBatch env networkName st endTimestamp = _
    unfold validateNextQueuedShieldBatch
    by_cases h : (getPendingShields st.shieldQueue endTimestamp 100).isEmpty
    · rw [if_pos h, List.isEmpty_iff.mp h, List.foldl_nil]
    · rw [if_neg h]

/-- C7: a queue-shields pass starts at the stored `latestBlockScanned` when
present and at the network's `deploymentBlock` otherwise; the observer is
pulled from that starting block; and the cursor is updated exactly when the
observer returned at least one shield, in which case the stored value is the
last returned shield's `blockNumber`. -/
theorem C7_queue_shields_cursor
    (env : QueueEnv) (networkName : String) (deploymentBlock : Nat)
    (st : NodeState) :
    ((queueNewShields env networkName deploymentBlock st).latestBlockScanned =
      match (env.getNewShieldsFromWallet networkName
          (startingBlockFor st deploymentBlock)).getLast? with
      | some s => some s.blockNumber
      | none => st.latestBlockScanned)
    ∧ ((queueNewShields env networkName deploymentBlock st).shieldQueue =
        ((env.getNewShieldsFromWallet networkName
            (startingBlockFor st deploymentBlock)).foldl
          (queueShieldSafe env networkName) st).shieldQueue)
    ∧ (st.latestBlockScanned = none →
        startingBlockFor st deploymentBlock = deploymentBlock)
    ∧ (∀ b, st.latestBlockScanned = some b →
        startingBlockFor st deploymentBlock = b) := by
  refine ⟨?_, ?_, ?_, ?_⟩
  · unfold queueNewShields
    cases hl : (env.getNewShieldsFromWallet networkName
        (startingBlockFor st deploymentBlock)).getLast? with
    | none => simp [hl, foldl_queueShieldSafe_latestBlockScanned]
    | some s => simp [hl]
  · unfold queueNewShields
    cases hl : (env.getNewShieldsFromWallet networkName
        (startingBlockFor st deploymentBlock)).getLast? with
    | none => simp [hl]
    | some s => simp [hl]
  · intro h
    unfold startingBlockFor
    rw [h]
    rfl
  · intro b h
    unfold startingBlockFor
    rw [h]
    rfl

/-- C8: per-shield errors are isolated. A failing insert makes
`queueShieldSafe` a no-op on the state, and the queue-shields batch over a
batch containing a failing shield equals the batch over the other shields;
a validation error (receipt fetch failure here, all throw sites are caught
alike) leaves the row's state — hence its `Pending` status — unchanged, and
the validate batch over a batch containing such a row equals the batch over
the other rows. -/
theorem C8_per_shield_errors_isolated
    (env : ValidateEnv) (qenv : QueueEnv) (networkName : String)
    (endTimestamp : Nat) :
    (∀ (st : NodeState) (sd : ShieldData),
        qenv.insertFails networkName sd = true →
        queueShieldSafe qenv networkName st sd = st)
    ∧ (∀ (st : NodeState) (pre post : List ShieldData) (bad : ShieldData),
        qenv.insertFails networkName bad = true →
        (pre ++ bad :: post).foldl (queueShieldSafe qenv networkName) st =
          post.foldl (queueShieldSafe qenv networkName)
            (pre.foldl (queueShieldSafe qenv networkName) st))
    ∧ (∀ (st : NodeState) (item : ShieldQueueDBItem),
        env.getTransactionReceipt networkName item.txid = none →
        validateShield env networkName st item endTimestamp = st)
    ∧ (∀ (st : NodeState) (pre post : List ShieldQueueDBItem)
          (bad : ShieldQueueDBItem),
        env.getTransactionReceipt networkName bad.txid = none →
        (pre ++ bad :: post).foldl
            (fun s item => validateShield env networkName s item endTimestamp)
            st =
          post.foldl
            (fun s item => validateShield env networkName s item endTimestamp)
            (pre.foldl
              (fun s item => validateShield env networkName s item endTimestamp)
              st)) := by
  have hsafe : ∀ (st : NodeState) (sd : ShieldData),
      qenv.insertFails networkName sd = true →
      queueShieldSafe qenv networkName st sd = st := by
    intro st sd h
    unfold queueShieldSafe
    rw [if_pos h]
  have hval : ∀ (st : NodeState) (item : ShieldQueueDBItem),
      env.getTransactionReceipt networkName item.txid = none →
      validateShield env networkName st item endTimestamp = st := by
    intro st item h
    simp [validateShield, validateShieldRun, h]
  refine ⟨hsafe, ?_, hval, ?_⟩
  · intro st pre post bad h
    rw [List.foldl_append, List.foldl_cons, hsafe _ _ h]
  · intro st pre post bad h
    rw [List.foldl_append, List.foldl_cons, hval _ _ h]

/-- C9: whenever `validateShield` consults the policy gate, the `fromAddress`
argument it passes is the lowercased `from` address of the transaction
receipt, and it contains no uppercase character. -/
theorem C9_policy_gate_receives_lowercase
    (env : ValidateEnv) (networkName : String) (st : NodeState)
    (item : ShieldQueueDBItem) (endTimestamp : Nat) (call : GateCall)
    (h : (validateShieldRun env networkName st item endTimestamp).2 = some call) :
    (∃ r, env.getTransactionReceipt networkName item.txid = some r
        ∧ call.fromAddressLowercase = toLowerCase r.fromAddress)
    ∧ ∀ c ∈ call.fromAddressLowercase.data, c.isUpper = false := by
  rcases hrec : env.getTransactionReceipt networkName item.txid with _ | r
  · simp [validateShieldRun, hrec] at h
  · rcases hts : env.getTimestampFromTransactionReceipt networkName r with _ | ts
    · simp [validateShieldRun, hrec, hts] at h
    · by_cases hlt : endTimestamp < ts
      · simp [validateShieldRun, hrec, hts, hlt] at h
      · have hcall : call =
            ⟨networkName, item.txid, toLowerCase r.fromAddress, ts⟩ := by
          simp only [validateShieldRun, hrec, hts, if_neg hlt] at h
          rcases hg : env.shouldAllowShield networkName item.txid
              (toLowerCase r.fromAddress) ts with _ | res
          · simp only [hg] at h
            exact (Option.some.inj h).symm
          · simp only [hg] at h
            by_cases hres : res.shouldAllow = true
            · simp only [if_pos hres] at h
              exact (Option.some.inj h).symm
            · simp only [if_neg hres] at h
              exact (Option.some.inj h).symm
        subst hcall
        exact ⟨⟨r, rfl, rfl⟩, toLowerCase_no_upper _⟩

/-- C10: when the process is not configured as a list provider,
`removeTransactProof` performs no effect at all, and
`submitValidatedTxidAndMerkleroot` only reads the list public key — neither
produces a signature or issues an HTTP request. -/
theorem C10_not_list_provider_no_sign_no_http
    (nodeURL chainType chainId listKey : String)
    (blindedCommitmentsOut : List String) (railgunTxidIfHasUnshield : String)
    (txidIndex : Nat) (merkleroot : String) :
    removeTransactProof false nodeURL chainType chainId listKey
        blindedCommitmentsOut railgunTxidIfHasUnshield = []
    ∧ submitValidatedTxidAndMerkleroot false nodeURL chainType chainId
        txidIndex merkleroot = [NodeEffect.readPublicKey] :=
  ⟨rfl, rfl⟩

/-! ## Witness instantiations -/

/-- Witness for C4 at a concrete input (allowing gate, eligible row). -/
theorem C4_validate_shield_allow_and_block_paths_witness :
    wAllowEnv.getTransactionReceipt wNetwork wItem.txid = some wReceipt
    ∧ wAllowEnv.getTimestampFromTransactionReceipt wNetwork wReceipt = some 5
    ∧ 5 ≤ 10
    ∧ wAllowEnv.shouldAllowShield wNetwork wItem.txid
        (toLowerCase wReceipt.fromAddress) 5 = some ⟨true, none⟩
    ∧ (((⟨true, none⟩ : PolicyResult).shouldAllow = true →
        validateShield wAllowEnv wNetwork wState wItem 10 =
          { wState with
              poiEventQueue := wState.poiEventQueue ++
                [⟨wItem.blindedCommitment, wItem.commitmentHash⟩],
              shieldQueue :=
                updateShieldStatus wState.shieldQueue wItem ShieldStatus.Allowed })
      ∧ ((⟨true, none⟩ : PolicyResult).shouldAllow = false →
        validateShield wAllowEnv wNetwork wState wItem 10 =
          { wState with
              blockedShields := wState.blockedShields ++
                [⟨wItem.commitmentHash, wItem.blindedCommitment, none⟩],
              shieldQueue :=
                updateShieldStatus wState.shieldQueue wItem ShieldStatus.Blocked })) :=
  ⟨rfl, rfl, by decide, rfl,
    C4_validate_shield_allow_and_block_paths wAllowEnv wNetwork wState wItem 10
      wReceipt 5 ⟨true, none⟩ rfl rfl (by decide) rfl⟩

/-- Witness for C5 at a concrete queue and batch state. -/
theorem C5_get_pending_shields_contract_witness :
    (∀ x ∈ getPendingShields [wItem] 10 5,
        x.status = ShieldStatus.Pending ∧ x.timestamp ≤ 10)
    ∧ (getPendingShields [wItem] 10 5).length ≤ 5
    ∧ (getPendingShields [wItem] 10 5).Sorted
        (fun a b => a.timestamp ≤ b.timestamp)
    ∧ getPendingShields [] 10 5 = []
    ∧ validateNextQueuedShieldBatch wAllowEnv wNetwork wState 10 =
        (getPendingShields wState.shieldQueue 10 100).foldl
          (fun s item => validateShield wAllowEnv wNetwork s item 10) wState :=
  C5_get_pending_shields_contract [wItem] 10 5 wAllowEnv wNetwork wState

/-- Witness for C6 at a concrete too-new row (timestamp 50, cutoff 10). -/
theorem C6_too_new_shield_left_pending_witness :
    wLateEnv.getTransactionReceipt wNetwork wItem.txid = some wReceipt
    ∧ wLateEnv.getTimestampFromTransactionReceipt wNetwork wReceipt = some 50
    ∧ 10 < 50
    ∧ validateShieldRun wLateEnv wNetwork wState wItem 10 = (wState, none) :=
  ⟨rfl, rfl, by decide,
    C6_too_new_shield_left_pending wLateEnv wNetwork wState wItem 10 wReceipt 50
      rfl rfl (by decide)⟩

/-- Witness for C7 at a concrete environment and state. -/
theorem C7_queue_shields_cursor_witness :
    ((queueNewShields wQueueEnv wNetwork 100 wState).latestBlockScanned =
      match (wQueueEnv.getNewShieldsFromWallet wNetwork
          (startingBlockFor wState 100)).getLast? with
      | some s => some s.blockNumber
      | none => wState.latestBlockScanned)
    ∧ ((queueNewShields wQueueEnv wNetwork 100 wState).shieldQueue =
        ((wQueueEnv.getNewShieldsFromWallet wNetwork
            (startingBlockFor wState 100)).foldl
          (queueShieldSafe wQueueEnv wNetwork) wState).shieldQueue)
    ∧ (wState.latestBlockScanned = none →
        startingBlockFor wState 100 = 100)
    ∧ (∀ b, wState.latestBlockScanned = some b →
        startingBlockFor wState 100 = b) :=
  C7_queue_shields_cursor wQueueEnv wNetwork 100 wState

/-- Witness for C8 at a concrete batch holding a failing shield and a
concrete failing validation row. -/
theorem C8_per_shield_errors_isolated_witness :
    wQueueEnv.insertFails wNetwork wBadShield = true
    ∧ queueShieldSafe wQueueEnv wNetwork wState wBadShield = wState
    ∧ ([wGoodShield] ++ wBadShield :: [wGoodShield]).foldl
        (queueShieldSafe wQueueEnv wNetwork) wState =
      [wGoodShield].foldl (queueShieldSafe wQueueEnv wNetwork)
        ([wGoodShield].foldl (queueShieldSafe wQueueEnv wNetwork) wState)
    ∧ wFailEnv.getTransactionReceipt wNetwork wItem.txid = none
    ∧ validateShield wFailEnv wNetwork wState wItem 10 = wState :=
  ⟨by decide,
    (C8_per_shield_errors_isolated wFailEnv wQueueEnv wNetwork 10).1 wState
      wBadShield (by decide),
    (C8_per_shield_errors_isolated wFailEnv wQueueEnv wNetwork 10).2.1 wState
      [wGoodShield] [wGoodShield] wBadShield (by decide),
    rfl,
    (C8_per_shield_errors_isolated wFailEnv wQueueEnv wNetwork 10).2.2.1 wState
      wItem rfl⟩

/-- Witness for C9 at a concrete gate call: the receipt sender `0xAB` reaches
the gate as `0xab`. -/
theorem C9_policy_gate_receives_lowercase_witness :
    (validateShieldRun wAllowEnv wNetwork wState wItem 10).2 =
      some ⟨wNetwork, wItem.txid, "0xab", 5⟩
    ∧ ((∃ r, wAllowEnv.getTransactionReceipt wNetwork wItem.txid = some r
          ∧ (GateCall.mk wNetwork wItem.txid "0xab" 5).fromAddressLowercase =
              toLowerCase r.fromAddress)
      ∧ ∀ c ∈ (GateCall.mk wNetwork wItem.txid "0xab" 5).fromAddressLowercase.data,
          c.isUpper = false) :=
  ⟨by decide,
    C9_policy_gate_receives_lowercase wAllowEnv wNetwork wState wItem 10
      ⟨wNetwork, wItem.txid, "0xab", 5⟩ (by decide)⟩

end POI
